import Mathlib

/-!
Verification of the uniform multi-engine database access shim of the
SQLSense repository (`electron/db.cjs`), shallowly embedded in Lean 4.

Values flowing through the shim are dynamically typed JavaScript values;
they are modelled by `JSValue` below.  Numbers are modelled as integers
plus `NaN` (the only numeric values the shim manipulates are
information-schema lengths/scales, which are integral, and `Number(...)`
applied to non-numeric strings, which yields `NaN`).  Driver rows are
association lists from property names to values, which preserves the
property insertion order that `Object.keys` observes.

Awaited vendor-driver calls (`pool.query`, `pool.connect`, `pool.end`,
...) are modelled by oracle records: each awaited call site of the source
corresponds to one `Except String _` field, `.error m` standing for a
rejected promise with message `m`.  The registry (`connections`, a `Map`
keyed by the generated identifier) is modelled as an association list in
insertion order, and each exported operation is a pure function from the
registry and the oracles to the new registry and/or its result, with
`Except.error` standing for a rejection of the exported operation.
-/

set_option linter.unusedVariables false

namespace SQLSense

/-- JavaScript numbers as used by the shim: integers or `NaN`. -/
inductive JSNum where
  | nan : JSNum
  | int (i : Int) : JSNum
deriving DecidableEq, Repr

/-- Dynamically typed JavaScript values flowing through `db.cjs`. -/
inductive JSValue where
  | undefined : JSValue
  | null : JSValue
  | bool (b : Bool) : JSValue
  | num (n : JSNum) : JSValue
  | str (s : String) : JSValue
deriving DecidableEq, Repr

/-- A driver result row: a JavaScript object, i.e. an ordered association
list from property names to values. -/
abbrev Row := List (String × JSValue)

/-- JavaScript truthiness: `undefined`, `null`, `false`, `0`, `NaN` and
the empty string are falsy, everything else is truthy. -/
def truthy : JSValue → Bool
  | .undefined => false
  | .null => false
  | .bool b => b
  | .num .nan => false
  | .num (.int i) => i != 0
  | .str s => s != ""

/-- JavaScript `a || b`: `a` when truthy, otherwise `b`. -/
def jsOr (a b : JSValue) : JSValue :=
  if truthy a then a else b

/-- First-match association-list lookup (JavaScript object property
access / `Map.prototype.get`; objects cannot hold duplicate keys). -/
def assocGet {α : Type} : List (String × α) → String → Option α
  | [], _ => none
  | (k, v) :: rest, key => if k = key then some v else assocGet rest key

/-- Removal of a key from an association list (`Map.prototype.delete`). -/
def assocDelete {α : Type} : List (String × α) → String → List (String × α)
  | [], _ => []
  | (k, v) :: rest, key =>
      if k = key then assocDelete rest key else (k, v) :: assocDelete rest key

/-- JavaScript property access `row[key]`: `undefined` when absent. -/
def jsGet (row : Row) (key : String) : JSValue :=
  (assocGet row key).getD .undefined

/-- JavaScript `String(v)` / `v.toString()` for the primitive values of
the model. -/
def jsToString : JSValue → String
  | .undefined => "undefined"
  | .null => "null"
  | .bool true => "true"
  | .bool false => "false"
  | .num .nan => "NaN"
  | .num (.int i) => toString i
  | .str s => s

/-- ASCII-range uppercasing, the fragment of JavaScript `toUpperCase`
exercised by the shim's sentinel comparisons. -/
def strUpper (s : String) : String :=
  ⟨s.data.map Char.toUpper⟩

/-- ASCII-range lowercasing (JavaScript `toLowerCase` on the shim's
sentinel strings). -/
def strLower (s : String) : String :=
  ⟨s.data.map Char.toLower⟩

/-- Whitespace stripped by JavaScript `Number` before parsing. -/
def isWS (c : Char) : Bool :=
  c == ' ' || c == '\t' || c == '\n' || c == '\r'

/-- Trim leading and trailing whitespace from a character list. -/
def trimChars (l : List Char) : List Char :=
  ((l.dropWhile isWS).reverse.dropWhile isWS).reverse

/-- Parse a non-empty all-digit character list into a natural number. -/
def parseNatDigits (acc : Nat) : List Char → Option Nat
  | [] => some acc
  | c :: cs => if c.isDigit then parseNatDigits (acc * 10 + (c.toNat - 48)) cs else none

/-- JavaScript `Number(s)` on a string, restricted to the integral
numerals the shim encounters (information-schema lengths and scales):
a trimmed empty string is `0`, an optionally signed integral numeral
parses, anything else is `NaN`. -/
def jsParseNumber (s : String) : JSNum :=
  match trimChars s.data with
  | [] => .int 0
  | '-' :: cs =>
    (match cs, parseNatDigits 0 cs with
     | _ :: _, some n => .int (-(n : Int))
     | _, _ => .nan)
  | '+' :: cs =>
    (match cs, parseNatDigits 0 cs with
     | _ :: _, some n => .int (n : Int)
     | _, _ => .nan)
  | cs =>
    (match parseNatDigits 0 cs with
     | some n => .int (n : Int)
     | none => .nan)

/-- JavaScript `Number(v)`. -/
def jsToNumber : JSValue → JSNum
  | .undefined => .nan
  | .null => .int 0
  | .bool true => .int 1
  | .bool false => .int 0
  | .num n => n
  | .str s => jsParseNumber s

/-- Boolean test that `p` is a prefix of `l`. -/
def hasPre : List Char → List Char → Bool
  | [], _ => true
  | _ :: _, [] => false
  | p :: ps, c :: cs => p == c && hasPre ps cs

/-- Boolean test that `p` is a contiguous substring of `l`. -/
def hasSub : List Char → List Char → Bool
  | p, [] => p.isEmpty
  | p, c :: cs => hasPre p (c :: cs) || hasSub p cs

/-- JavaScript `s.includes(sub)`: substring containment. -/
def jsIncludes (s sub : String) : Bool :=
  hasSub sub.data s.data

/-- JavaScript strict equality `===` on the modelled primitives
(`NaN === NaN` is false). -/
def jsStrictEq (a b : JSValue) : Bool :=
  match a, b with
  | .num .nan, _ => false
  | _, .num .nan => false
  | a', b' => decide (a' = b')

/-- The destructured `opts` parameter of `mapColumns` with its default
key names (`db.cjs` line 9). -/
structure MapOpts where
  tableKey : String := "table_name"
  nameKey : String := "column_name"
  typeKey : String := "data_type"
  lengthKey : String := "character_maximum_length"
  scaleKey : String := "numeric_scale"
  nullableKey : String := "is_nullable"
  keyKey : String := "column_key"
  commentKey : String := "column_comment"
deriving DecidableEq, Repr

/-- The normalized column metadata pushed by `mapColumns`
(`db.cjs` lines 14-23). -/
structure ColumnDescriptor where
  name : JSValue
  type : String
  length : Option JSNum
  decimal : Option JSNum
  notNull : Bool
  virtual : Bool
  isKey : Bool
  comment : JSValue
deriving DecidableEq, Repr

/-- One normalized column row (the body of the `for` loop of
`mapColumns`, `db.cjs` lines 14-23).  The `column_key` value is a string
in every call of the source; its stringification is applied before the
`includes` tests, matching the source for string values. -/
def descOf (opts : MapOpts) (col : Row) : ColumnDescriptor :=
  let keyVal := jsToString (jsOr (jsGet col opts.keyKey) (.str ""))
  { name := jsOr (jsGet col opts.nameKey) (jsGet col "column_name")
    type := strUpper (jsToString (jsOr (jsGet col opts.typeKey) (.str "")))
    length := if truthy (jsGet col opts.lengthKey)
              then some (jsToNumber (jsGet col opts.lengthKey)) else none
    decimal := if truthy (jsGet col opts.scaleKey)
               then some (jsToNumber (jsGet col opts.scaleKey)) else none
    notNull := strUpper (jsToString (jsOr (jsGet col opts.nullableKey) (.str ""))) == "NO"
    virtual := false
    isKey := jsIncludes keyVal "PRI" || jsIncludes (strLower keyVal) "primary"
    comment := jsOr (jsGet col opts.commentKey) (.str "") }

/-- The grouping key of a column row:
`const tableName = col[tableKey] || col.table_name`, used as an object
key and hence stringified (`db.cjs` line 12). -/
def colTableName (opts : MapOpts) (col : Row) : String :=
  jsToString (jsOr (jsGet col opts.tableKey) (jsGet col "table_name"))

/-- The aggregated schema mapping built by `mapColumns`. -/
abbrev Schema := List (String × List ColumnDescriptor)

/-- `if (!schema[tableName]) schema[tableName] = []; schema[tableName].push(...)`:
append a descriptor to the group of `key`, creating the group at the end
on first appearance (`db.cjs` lines 13-14). -/
def insertCol : Schema → String → ColumnDescriptor → Schema
  | [], key, c => [(key, [c])]
  | (k, cs) :: rest, key, c =>
      if k = key then (k, cs ++ [c]) :: rest
      else (k, cs) :: insertCol rest key c

/-- The `for (const col of rows)` loop of `mapColumns` with the schema
accumulator made explicit. -/
def mapColumnsGo (opts : MapOpts) : Schema → List Row → Schema
  | sch, [] => sch
  | sch, col :: rest =>
      mapColumnsGo opts (insertCol sch (colTableName opts col) (descOf opts col)) rest

/-- `mapColumns(rows, opts)` (`db.cjs` lines 8-26): group the rows by
table name, in order of first appearance, into normalized column
descriptors. -/
def mapColumns (rows : List Row) (opts : MapOpts) : Schema :=
  mapColumnsGo opts [] rows

/-- The user-supplied connection configuration (spec: ConnectionConfig;
the fields `connect` reads from `config`). -/
structure ConnConfig where
  name : String
  type : String
  host : String
  port : Option Nat
  user : String
  password : String
  database : Option String
deriving DecidableEq, Repr

/-- A registry entry: `{ type, pool, config }` as stored by `connect`
(`db.cjs` lines 42, 55, 72).  The live `pool` object has no pure
content; its behaviour is supplied by the oracle records below. -/
structure ConnEntry where
  type : String
  config : ConnConfig
deriving DecidableEq, Repr

/-- The module-level `connections` map (`db.cjs` line 6), in insertion
order. -/
abbrev Registry := List (String × ConnEntry)

/-- The `base` object returned by a successful `connect`
(`db.cjs` line 30). -/
structure BaseInfo where
  id : String
  name : String
  type : String
  host : String
  database : Option String
deriving DecidableEq, Repr

/-- Oracle for the awaited driver calls of `connect`: the liveness probe
`pool.query('SELECT 1')` of the mysql/postgres branches and the
`pool.connect()` of the sqlserver branch. -/
structure ConnectDriver where
  mysqlProbe : Except String Unit
  pgProbe : Except String Unit
  mssqlConnect : Except String Unit

/-- `connect(config)` (`db.cjs` lines 28-77).  `id` stands for the fresh
`crypto.randomUUID()`; the pair is the registry after the call and the
outcome.  On a failed probe the error propagates before
`connections.set`, so the registry is returned unchanged. -/
def connect (reg : Registry) (id : String) (config : ConnConfig)
    (driver : ConnectDriver) : Registry × Except String BaseInfo :=
  let base : BaseInfo :=
    { id := id, name := config.name, type := config.type,
      host := config.host, database := config.database }
  if config.type = "mysql" then
    match driver.mysqlProbe with
    | .error m => (reg, .error m)
    | .ok _ => (reg ++ [(id, { type := "mysql", config := config })], .ok base)
  else if config.type = "postgres" then
    match driver.pgProbe with
    | .error m => (reg, .error m)
    | .ok _ => (reg ++ [(id, { type := "postgres", config := config })], .ok base)
  else if config.type = "sqlserver" then
    match driver.mssqlConnect with
    | .error m => (reg, .error m)
    | .ok _ => (reg ++ [(id, { type := "sqlserver", config := config })], .ok base)
  else (reg, .error ("暂不支持的数据库类型: " ++ config.type))

/-- Oracle for the awaited `pool.end()` / `pool.close()` of `close`,
per connection identifier. -/
abbrev CloseEff := String → Except String Unit

/-- `close(connId)` (`db.cjs` lines 251-258): absent identifier is a
silent no-op; otherwise the engine-specific pool teardown is awaited and,
only if it succeeds, the entry is deleted.  A teardown rejection
propagates and leaves the entry registered. -/
def close (reg : Registry) (connId : String) (eff : CloseEff) :
    Registry × Except String Unit :=
  match assocGet reg connId with
  | none => (reg, .ok ())
  | some conn =>
    if conn.type = "mysql" ∨ conn.type = "postgres" ∨ conn.type = "sqlserver" then
      match eff connId with
      | .error m => (reg, .error m)
      | .ok _ => (assocDelete reg connId, .ok ())
    else (assocDelete reg connId, .ok ())

/-- The `for (const [id] of connections) await close(id)` loop of
`closeAll` over the snapshot of keys (closing an entry only removes that
entry, so iterating the initial key list coincides with the live `Map`
iterator).  A rejection of `close` propagates out of the loop. -/
def closeAllGo (eff : CloseEff) : Registry → List String → Registry × Except String Unit
  | reg, [] => (reg, .ok ())
  | reg, id :: rest =>
    match close reg id eff with
    | (reg', .ok _) => closeAllGo eff reg' rest
    | (reg', .error m) => (reg', .error m)

/-- `closeAll()` (`db.cjs` lines 260-264). -/
def closeAll (reg : Registry) (eff : CloseEff) : Registry × Except String Unit :=
  closeAllGo eff reg (reg.map Prod.fst)

/-- A returned database tree node (`db.cjs` lines 86-95, 107-116, ...). -/
structure DbNode where
  id : String
  name : String
  expanded : Bool
  tablesExpanded : Bool
  viewsExpanded : Bool
  tables : List JSValue
  views : List JSValue
  loaded : Bool
deriving DecidableEq, Repr

/-- The `{ databases, schema }` response of `listSchema`. -/
structure SchemaResult where
  databases : List DbNode
  schema : Schema
deriving DecidableEq, Repr

/-- `rows.filter((t) => t[typeKey] !== 'VIEW').map((t) => t[nameKey])`:
the table list of a loaded database node (`db.cjs` lines 113, 161, 196). -/
def splitTables (typeKey nameKey : String) (rows : List Row) : List JSValue :=
  (rows.filter fun t => !(jsStrictEq (jsGet t typeKey) (.str "VIEW"))).map
    fun t => jsGet t nameKey

/-- `rows.filter((t) => t[typeKey] === 'VIEW').map((t) => t[nameKey])`:
the view list of a loaded database node (`db.cjs` lines 114, 162, 197). -/
def splitViews (typeKey nameKey : String) (rows : List Row) : List JSValue :=
  (rows.filter fun t => jsStrictEq (jsGet t typeKey) (.str "VIEW")).map
    fun t => jsGet t nameKey

/-- A discovery-mode (unexpanded) database node (`db.cjs` lines 86-95,
128-137, 175-184); `nameVal` is the driver-reported database name. -/
def discoveryNode (connId : String) (nameVal : JSValue) : DbNode :=
  { id := connId ++ "-" ++ jsToString nameVal, name := jsToString nameVal,
    expanded := false, tablesExpanded := false, viewsExpanded := false,
    tables := [], views := [], loaded := false }

/-- A fully loaded database node for the target database
(`db.cjs` lines 107-116, 155-164, 190-199). -/
def loadedDbNode (connId database typeKey nameKey : String)
    (tableRows : List Row) : DbNode :=
  { id := connId ++ "-" ++ database, name := database,
    expanded := true, tablesExpanded := true, viewsExpanded := true,
    tables := splitTables typeKey nameKey tableRows,
    views := splitViews typeKey nameKey tableRows, loaded := true }

/-- Oracle for the awaited driver calls of `listSchema`, one field per
awaited call site of the source. -/
structure SchemaDriver where
  mysqlShowDatabases : Except String (List Row)
  mysqlGetConnection : Except String Unit
  mysqlUse : Except String Unit
  mysqlTables : Except String (List Row)
  mysqlColumns : Except String (List Row)
  pgPoolConnect : Except String Unit
  pgListDatabases : Except String (List Row)
  pgTempConnect : Except String Unit
  pgTables : Except String (List Row)
  pgColumns : Except String (List Row)
  mssqlListDatabases : Except String (List Row)
  mssqlTables : Except String (List Row)
  mssqlColumns : Except String (List Row)

/-- The explicit opts record the postgres branch passes to `mapColumns`
(`db.cjs` line 154); its values coincide with the defaults. -/
def pgMapOpts : MapOpts :=
  { tableKey := "table_name", nameKey := "column_name",
    typeKey := "data_type", lengthKey := "character_maximum_length",
    scaleKey := "numeric_scale", nullableKey := "is_nullable" }

/-- `listSchema(connId, database)` (`db.cjs` lines 79-204).  `database`
is `none` for the discovery-only listing (the JavaScript guard is the
truthiness of `database`; the caller passes a database name or
`undefined`). -/
def listSchema (reg : Registry) (connId : String) (database : Option String)
    (driver : SchemaDriver) : Except String SchemaResult :=
  match assocGet reg connId with
  | none => .error "连接不存在"
  | some conn =>
    if conn.type = "mysql" then
      match database with
      | none => do
        let dbs ← driver.mysqlShowDatabases
        pure { databases := dbs.map fun d => discoveryNode connId (jsGet d "Database")
               schema := [] }
      | some db => do
        let _ ← driver.mysqlGetConnection
        let _ ← driver.mysqlUse
        let tableRows ← driver.mysqlTables
        let colRows ← driver.mysqlColumns
        pure { databases := [loadedDbNode connId db "TABLE_TYPE" "TABLE_NAME" tableRows]
               schema := mapColumns colRows {} }
    else if conn.type = "postgres" then
      match database with
      | none => do
        let _ ← driver.pgPoolConnect
        let dbs ← driver.pgListDatabases
        pure { databases := dbs.map fun d => discoveryNode connId (jsGet d "datname")
               schema := [] }
      | some db => do
        let _ ← driver.pgTempConnect
        let tableRows ← driver.pgTables
        let colRows ← driver.pgColumns
        pure { databases := [loadedDbNode connId db "table_type" "table_name" tableRows]
               schema := mapColumns colRows pgMapOpts }
    else if conn.type = "sqlserver" then
      match database with
      | none => do
        let dbs ← driver.mssqlListDatabases
        pure { databases := dbs.map fun d => discoveryNode connId (jsGet d "name")
               schema := [] }
      | some db => do
        let tableRows ← driver.mssqlTables
        let colRows ← driver.mssqlColumns
        pure { databases := [loadedDbNode connId db "TABLE_TYPE" "TABLE_NAME" tableRows]
               schema := mapColumns colRows {} }
    else .error ("暂不支持的数据库类型: " ++ conn.type)

/-- The `{ headers, rows }` response of `runQuery`.  The source never
attaches an `error` property to this object: `db.cjs` contains no
catch-and-return path. -/
structure QueryResult where
  headers : List String
  rows : List Row
deriving DecidableEq, Repr

/-- Oracle for the awaited driver calls of `runQuery`.  For mysql the
query resolves with `[rows, fields]`, `fields` being the field-metadata
list (modelled by its `.name` projections) or `undefined` (`none`); for
postgres with `{ rows, fields }`; for sqlserver with a result whose
`recordset` may be `undefined` (`none`). -/
structure QueryDriver where
  mysqlGetConnection : Except String Unit
  mysqlUse : Except String Unit
  mysqlQuery : Except String (List Row × Option (List String))
  pgTempConnect : Except String Unit
  pgQuery : Except String (List Row × Option (List String))
  mssqlQuery : Except String (Option (List Row))

/-- `runQuery(connId, sql, database)` (`db.cjs` lines 206-249).  The
mysql branch issues `USE` only when `database` is given; the sqlserver
branch (lines 241-246) evaluates the undeclared identifier `fields` on
line 244, which in JavaScript throws
`ReferenceError: fields is not defined` after the driver query resolves,
so that branch can never produce a result. -/
def runQuery (reg : Registry) (connId : String) (sql : String)
    (database : Option String) (driver : QueryDriver) : Except String QueryResult :=
  match assocGet reg connId with
  | none => .error "连接不存在"
  | some conn =>
    if conn.type = "mysql" then do
      let _ ← driver.mysqlGetConnection
      let _ ← (if database.isSome then driver.mysqlUse else .ok ())
      let (rows, fieldNames) ← driver.mysqlQuery
      pure { headers :=
               match fieldNames with
               | some fs => fs
               | none =>
                 match rows with
                 | r :: _ => r.map Prod.fst
                 | [] => []
             rows := rows }
    else if conn.type = "postgres" then do
      let _ ← driver.pgTempConnect
      let (rows, fieldNames) ← driver.pgQuery
      pure { headers := (match fieldNames with | some fs => fs | none => [])
             rows := rows }
    else if conn.type = "sqlserver" then do
      let _ ← driver.mssqlQuery
      .error "ReferenceError: fields is not defined"
    else .error ("暂不支持的数据库类型: " ++ conn.type)

/-! ### Helper lemmas -/

/-- Deleting a key removes it from lookup. -/
theorem assocGet_assocDelete {α : Type} (l : List (String × α)) (k : String) :
    assocGet (assocDelete l k) k = none := by
  induction l with
  | nil => rfl
  | cons p rest ih =>
    obtain ⟨k', v⟩ := p
    by_cases h : k' = k
    · simp [assocDelete, h, ih]
    · simp [assocDelete, assocGet, h, ih]

/-- Keys present after `insertCol`: the inserted key or a previously
present key. -/
theorem assocGet_insertCol_isSome (sch : Schema) (k key : String)
    (c : ColumnDescriptor) :
    (assocGet (insertCol sch key c) k).isSome ↔
      (k = key ∨ (assocGet sch k).isSome) := by
  induction sch with
  | nil =>
    by_cases h : k = key
    · subst h; simp [insertCol, assocGet]
    · simp [insertCol, assocGet, h, Ne.symm h]
  | cons p rest ih =>
    obtain ⟨k', cs⟩ := p
    by_cases h1 : k' = key
    · by_cases h2 : k' = k
      · subst h1; subst h2
        simp [insertCol, assocGet]
      · have hk : ¬k = key := fun hh => h2 (h1.trans hh.symm)
        rw [h1] at h2
        simp [insertCol, assocGet, h1, h2, hk]
    · by_cases h2 : k' = k
      · subst h2
        simp [insertCol, assocGet, h1]
      · simp [insertCol, assocGet, h1, h2, ih]

/-- Keys present in the accumulator-passing loop of `mapColumns`. -/
theorem assocGet_mapColumnsGo_isSome (opts : MapOpts) (rows : List Row)
    (sch : Schema) (k : String) :
    (assocGet (mapColumnsGo opts sch rows) k).isSome ↔
      ((assocGet sch k).isSome ∨ k ∈ rows.map (colTableName opts)) := by
  induction rows generalizing sch with
  | nil => simp [mapColumnsGo]
  | cons col rest ih =>
    simp only [mapColumnsGo, ih, assocGet_insertCol_isSome, List.map_cons,
      List.mem_cons]
    tauto

/-- `hasPre` decides list prefixing. -/
theorem hasPre_iff (p l : List Char) : hasPre p l = true ↔ p <+: l := by
  induction p generalizing l with
  | nil => simp [hasPre]
  | cons a ps ih =>
    cases l with
    | nil => simp [hasPre]
    | cons b ls => simp [hasPre, ih, List.cons_prefix_cons, And.comm]

/-- `hasSub` decides contiguous-substring containment. -/
theorem hasSub_iff (p l : List Char) : hasSub p l = true ↔ p <:+: l := by
  induction l with
  | nil => simp [hasSub, List.isEmpty_iff]
  | cons c cs ih => simp [hasSub, hasPre_iff, ih, List.infix_cons_iff]

/-- The falsy `JSValue`s, enumerated. -/
theorem truthy_eq_false_iff (v : JSValue) :
    truthy v = false ↔
      (v = .undefined ∨ v = .null ∨ v = .bool false ∨ v = .num .nan ∨
       v = .num (.int 0) ∨ v = .str "") := by
  cases v with
  | undefined => simp [truthy]
  | null => simp [truthy]
  | bool b => cases b <;> simp [truthy]
  | num n => cases n <;> simp [truthy]
  | str s => simp [truthy]

/-! ### Shared concrete fixtures -/

/-- A mysql connection configuration used by concrete evaluations. -/
def mysqlConfig : ConnConfig :=
  { name := "local", type := "mysql", host := "127.0.0.1", port := some 3306,
    user := "root", password := "", database := none }

/-- A sqlserver connection configuration used by concrete evaluations. -/
def mssqlConfig : ConnConfig :=
  { name := "ms", type := "sqlserver", host := "127.0.0.1", port := some 1433,
    user := "sa", password := "pw", database := some "master" }

/-- A schema-driver oracle whose every call succeeds with empty results. -/
def emptySchemaDriver : SchemaDriver :=
  { mysqlShowDatabases := .ok [], mysqlGetConnection := .ok (),
    mysqlUse := .ok (), mysqlTables := .ok [], mysqlColumns := .ok [],
    pgPoolConnect := .ok (), pgListDatabases := .ok [],
    pgTempConnect := .ok (), pgTables := .ok [], pgColumns := .ok [],
    mssqlListDatabases := .ok [], mssqlTables := .ok [], mssqlColumns := .ok [] }

/-- A query-driver oracle whose every call succeeds with empty results. -/
def emptyQueryDriver : QueryDriver :=
  { mysqlGetConnection := .ok (), mysqlUse := .ok (),
    mysqlQuery := .ok ([], none), pgTempConnect := .ok (),
    pgQuery := .ok ([], none), mssqlQuery := .ok none }

/-! ### C1 -/

/-- Registry with one live mysql connection. -/
def c1Reg : Registry := [("conn-1", { type := "mysql", config := mysqlConfig })]

/-- Driver oracle in which the user statement is rejected by the engine
(a syntax error for `SELEC 1`). -/
def c1Driver : QueryDriver :=
  { emptyQueryDriver with mysqlQuery := .error "ER_PARSE_ERROR near SELEC 1" }

/-- C1: the claim says `runQuery` never rejects and returns driver-level
execution errors as `{ headers: [], rows: [], error }`.  The source has
no catch-and-return path: evaluated on a registered mysql connection
whose driver reports a syntax error for `SELEC 1`, `runQuery` rejects
with the driver error instead of resolving. -/
theorem c1_runQuery_rejects_on_driver_error :
    runQuery c1Reg "conn-1" "SELEC 1" none c1Driver =
      .error "ER_PARSE_ERROR near SELEC 1" := by
  rfl

/-! ### C2 -/

/-- Registry with one live sqlserver connection. -/
def c2Reg : Registry := [("conn-2", { type := "sqlserver", config := mssqlConfig })]

/-- Driver oracle in which the sqlserver query succeeds with one row. -/
def c2Driver : QueryDriver :=
  { emptyQueryDriver with mssqlQuery := .ok (some [[("one", .num (.int 1))]]) }

/-- C2: the claim says every engine's `runQuery` extracts headers from
driver field metadata, falling back to first-row keys.  The sqlserver
branch (`db.cjs` line 244) reads the undeclared identifier `fields`, so
even a successful driver query ends in
`ReferenceError: fields is not defined` and no headers are ever
extracted on that engine. -/
theorem c2_sqlserver_runQuery_throws_reference_error :
    runQuery c2Reg "conn-2" "SELECT 1 AS one" none c2Driver =
      .error "ReferenceError: fields is not defined" := by
  rfl

/-! ### C4 -/

/-- C4 counterexample: `close` on an identifier never returned by
`connect` returns successfully and changes nothing — a silent no-op, not
a `ConnectionNotFound` failure as the claim demands of all three
operations. -/
theorem c4_close_unknown_id_silent_noop :
    close [] "ghost" (fun _ => .ok ()) = ([], .ok ()) := by
  rfl

/-- C4 (amended): with an identifier absent from the registry,
`listSchema` and `runQuery` fail with the distinct ConnectionNotFound
error (`连接不存在`), while `close` is a silent no-op that succeeds and
leaves the registry unchanged. -/
theorem c4_unknown_id_behavior (reg : Registry) (id : String)
    (db : Option String) (sql : String) (sd : SchemaDriver)
    (qd : QueryDriver) (eff : CloseEff) (h : assocGet reg id = none) :
    listSchema reg id db sd = .error "连接不存在" ∧
    runQuery reg id sql db qd = .error "连接不存在" ∧
    close reg id eff = (reg, .ok ()) := by
  refine ⟨?_, ?_, ?_⟩ <;> simp [listSchema, runQuery, close, h]

/-- C4 witness: the amended behaviour at the concrete unknown
identifier `nope` on the empty registry. -/
theorem c4_unknown_id_behavior_witness :
    listSchema [] "nope" none emptySchemaDriver = .error "连接不存在" ∧
    runQuery [] "nope" "SELECT 1" none emptyQueryDriver = .error "连接不存在" ∧
    close [] "nope" (fun _ => .ok ()) = ([], .ok ()) :=
  c4_unknown_id_behavior [] "nope" none "SELECT 1" emptySchemaDriver
    emptyQueryDriver (fun _ => .ok ()) rfl

/-! ### C9 -/

/-- C9: close is idempotent.  If a `close` call returns without error,
an immediately repeated `close` for the same identifier also returns
without error and leaves the registry unchanged; and `close` on an
identifier absent from the registry is a no-op returning success. -/
theorem c9_close_idempotent (reg : Registry) (id : String) (eff : CloseEff) :
    ((close reg id eff).2 = .ok () →
      close (close reg id eff).1 id eff = ((close reg id eff).1, .ok ())) ∧
    (assocGet reg id = none → close reg id eff = (reg, .ok ())) := by
  constructor
  · intro h
    cases hg : assocGet reg id with
    | none => simp [close, hg]
    | some conn =>
      by_cases ht : conn.type = "mysql" ∨ conn.type = "postgres" ∨
          conn.type = "sqlserver"
      · cases he : eff id with
        | error m =>
          exfalso
          simp [close, hg, ht, he] at h
        | ok u =>
          simp [close, hg, ht, he, assocGet_assocDelete]
      · simp [close, hg, ht, assocGet_assocDelete]
  · intro h
    simp [close, h]

/-- Registry with one mysql connection for the C9 witness. -/
def c9Reg : Registry := [("x", { type := "mysql", config := mysqlConfig })]

/-- A pool teardown oracle that always succeeds. -/
def c9Eff : CloseEff := fun _ => .ok ()

/-- C9 witness: after a completed `close` of the registered identifier
`x`, a second `close` returns without error; and `close` of `x` on the
empty registry is a no-op. -/
theorem c9_close_idempotent_witness :
    close (close c9Reg "x" c9Eff).1 "x" c9Eff =
      ((close c9Reg "x" c9Eff).1, .ok ()) ∧
    close [] "x" c9Eff = ([], .ok ()) :=
  ⟨(c9_close_idempotent c9Reg "x" c9Eff).1 rfl,
   (c9_close_idempotent [] "x" c9Eff).2 rfl⟩

/-! ### C10 -/

/-- A column row whose length and scale source values are truthy but
non-numeric. -/
def c10Row : Row :=
  [("table_name", .str "widgets"), ("column_name", .str "label"),
   ("data_type", .str "varchar"),
   ("character_maximum_length", .str "abc"), ("numeric_scale", .str "xyz")]

/-- C10 counterexample: the claim says length and decimal-scale are
absent whenever the source value is falsy or non-numeric.  On a truthy
non-numeric source value (`'abc'`, `'xyz'`) the normalizer stores
`Number(value) = NaN` instead of leaving the field absent. -/
theorem c10_nonnumeric_length_not_absent :
    (descOf {} c10Row).length = some JSNum.nan ∧
    (descOf {} c10Row).decimal = some JSNum.nan :=
  ⟨rfl, rfl⟩

/-- C10 (amended): the normalized type is the raw type string
uppercased, and length/decimal-scale are absent exactly when the source
value is falsy (`undefined`, `null`, `false`, `NaN`, `0`, or the empty
string); a truthy non-numeric source value is stored as `NaN`, not
dropped. -/
theorem c10_normalizer_length_scale_type (opts : MapOpts) (col : Row) :
    ((descOf opts col).length = none ↔
      (jsGet col opts.lengthKey = .undefined ∨
       jsGet col opts.lengthKey = .null ∨
       jsGet col opts.lengthKey = .bool false ∨
       jsGet col opts.lengthKey = .num .nan ∨
       jsGet col opts.lengthKey = .num (.int 0) ∨
       jsGet col opts.lengthKey = .str "")) ∧
    ((descOf opts col).decimal = none ↔
      (jsGet col opts.scaleKey = .undefined ∨
       jsGet col opts.scaleKey = .null ∨
       jsGet col opts.scaleKey = .bool false ∨
       jsGet col opts.scaleKey = .num .nan ∨
       jsGet col opts.scaleKey = .num (.int 0) ∨
       jsGet col opts.scaleKey = .str "")) ∧
    (∀ s : String, jsGet col opts.typeKey = .str s →
      (descOf opts col).type = strUpper s) := by
  refine ⟨?_, ?_, ?_⟩
  · rw [← truthy_eq_false_iff]
    cases h : truthy (jsGet col opts.lengthKey) <;> simp [descOf, h]
  · rw [← truthy_eq_false_iff]
    cases h : truthy (jsGet col opts.scaleKey) <;> simp [descOf, h]
  · intro s hs
    by_cases h : s = ""
    · subst h
      simp [descOf, hs, jsOr, truthy, jsToString]
    · simp [descOf, hs, jsOr, truthy, h, jsToString]

/-- A column row with a plain string type value for the C10 witness. -/
def c10WRow : Row :=
  [("table_name", .str "t2"), ("column_name", .str "c2"),
   ("data_type", .str "datetime")]

/-- C10 witness: the type of a concrete row with raw type `datetime` is
its uppercasing. -/
theorem c10_normalizer_witness :
    (descOf {} c10WRow).type = strUpper "datetime" :=
  (c10_normalizer_length_scale_type {} c10WRow).2.2 "datetime" rfl

/-! ### C3 -/

/-- A postgres connection configuration used by concrete evaluations. -/
def pgConfig : ConnConfig :=
  { name := "pg", type := "postgres", host := "127.0.0.1", port := some 5432,
    user := "postgres", password := "pw", database := some "postgres" }

/-- Two-connection registry for the C3 counterexample. -/
def c3Reg : Registry :=
  [("a", { type := "mysql", config := mysqlConfig }),
   ("b", { type := "sqlserver", config := mssqlConfig })]

/-- Teardown oracle in which the first handle's pool close rejects. -/
def c3Eff : CloseEff := fun id => if id = "a" then .error "boom" else .ok ()

/-- C3 counterexample: the claim says `closeAll` keeps closing remaining
handles after one close fails.  With two registered handles whose first
teardown fails, `closeAll` rejects immediately with that failure and the
second handle is still registered — it was never attempted. -/
theorem c3_closeAll_aborts_counterexample :
    closeAll c3Reg c3Eff = (c3Reg, .error "boom") ∧
    assocGet (closeAll c3Reg c3Eff).1 "b" =
      some { type := "sqlserver", config := mssqlConfig } :=
  ⟨rfl, rfl⟩

/-- C3 (amended): `closeAll` iterates the registry in insertion order
and aborts at the first handle whose close fails: the failure propagates
immediately, and the failed and all following handles remain registered
and unattempted. -/
theorem c3_closeAll_abort_on_first_error (id : String) (e : ConnEntry)
    (rest : Registry) (eff : CloseEff) (m : String)
    (ht : e.type = "mysql" ∨ e.type = "postgres" ∨ e.type = "sqlserver")
    (hf : eff id = .error m) :
    closeAll ((id, e) :: rest) eff = ((id, e) :: rest, .error m) := by
  simp [closeAll, closeAllGo, close, assocGet, ht, hf]

/-- C3 witness: the amended abort behaviour at a concrete one-entry
registry whose teardown fails. -/
theorem c3_closeAll_abort_witness :
    closeAll [("w", { type := "postgres", config := pgConfig })]
        (fun _ => .error "teardown failed") =
      ([("w", { type := "postgres", config := pgConfig })],
       .error "teardown failed") :=
  c3_closeAll_abort_on_first_error "w" { type := "postgres", config := pgConfig }
    [] (fun _ => .error "teardown failed") "teardown failed"
    (Or.inr (Or.inl rfl)) rfl

/-! ### C5 -/

/-- Registry with one mysql connection for the C5 counterexample. -/
def c5Reg : Registry := [("c5", { type := "mysql", config := mysqlConfig })]

/-- One base table reported by introspection. -/
def c5Tables : List Row :=
  [[("TABLE_NAME", .str "users"), ("TABLE_TYPE", .str "BASE TABLE")]]

/-- One column row of table `users`. -/
def c5Cols : List Row :=
  [[("table_name", .str "users"), ("column_name", .str "id"),
    ("data_type", .str "int"), ("is_nullable", .str "NO"),
    ("column_key", .str "PRI")]]

/-- Introspection oracle for the C5 counterexample. -/
def c5Driver : SchemaDriver :=
  { emptySchemaDriver with mysqlTables := .ok c5Tables, mysqlColumns := .ok c5Cols }

/-- The `listSchema` response for the C5 fixtures. -/
def c5Expected : SchemaResult :=
  { databases := [loadedDbNode "c5" "mydb" "TABLE_TYPE" "TABLE_NAME" c5Tables],
    schema := mapColumns c5Cols {} }

/-- C5 counterexample: the claim says the returned column mapping is
keyed both by `T` and by `"D.T"`.  For a `listSchema` call against
database `mydb` with table `users`, the key `users` is present but the
key `mydb.users` is absent: no database-qualified key exists. -/
theorem c5_no_database_qualified_key :
    listSchema c5Reg "c5" (some "mydb") c5Driver = .ok c5Expected ∧
    (assocGet c5Expected.schema "users").isSome = true ∧
    assocGet c5Expected.schema "mydb.users" = none :=
  ⟨rfl, rfl, rfl⟩

/-- C5 (amended): the returned column mapping aggregates all columns of
all tables of the target database keyed by table name alone: a key is
present in the mapping exactly when it is the (stringified) table name
of some returned column row.  No additional `"D.T"` key is added. -/
theorem c5_schema_keys_are_table_names (rows : List Row) (opts : MapOpts)
    (k : String) :
    (assocGet (mapColumns rows opts) k).isSome ↔
      k ∈ rows.map (colTableName opts) := by
  simpa [mapColumns, assocGet] using
    assocGet_mapColumnsGo_isSome opts rows [] k

/-! ### C6 -/

/-- Modelled from the spec: the claim's primary-key predicate, a
case-insensitive substring match of `PRI` against the key field. -/
def claimIsKeyCaseInsensitive (v : JSValue) : Bool :=
  jsIncludes (strUpper (jsToString (jsOr v (.str "")))) "PRI"

/-- A column row with lowercase sentinel values. -/
def c6Row : Row :=
  [("table_name", .str "t"), ("column_name", .str "c"),
   ("is_nullable", .str "no"), ("column_key", .str "pri")]

/-- C6 counterexample: on a row whose nullable field is `'no'`, the code
sets the not-null flag although the field does not compare equal to the
sentinel `'NO'` (the code compares case-insensitively); and on a row
whose key field is `'pri'`, the code leaves the primary-key flag false
although a case-insensitive substring match of `'PRI'` succeeds (the
code's `includes('PRI')` is case-sensitive). -/
theorem c6_sentinel_matching_counterexample :
    (descOf {} c6Row).notNull = true ∧
    jsGet c6Row "is_nullable" ≠ .str "NO" ∧
    (descOf {} c6Row).isKey = false ∧
    claimIsKeyCaseInsensitive (jsGet c6Row "column_key") = true := by
  refine ⟨rfl, ?_, rfl, rfl⟩
  decide

/-- C6 (amended): the not-null flag is true exactly when the uppercased
string of the nullable field equals `'NO'` (a case-insensitive
comparison, not plain equality), and the primary-key flag is true
exactly when the key field contains `'PRI'` case-sensitively or its
lowercasing contains `'primary'` (not a case-insensitive `'PRI'`
match). -/
theorem c6_flag_semantics (opts : MapOpts) (col : Row) :
    ((descOf opts col).notNull = true ↔
      strUpper (jsToString (jsOr (jsGet col opts.nullableKey) (.str ""))) = "NO") ∧
    ((descOf opts col).isKey = true ↔
      ("PRI".data <:+: (jsToString (jsOr (jsGet col opts.keyKey) (.str ""))).data ∨
       "primary".data <:+:
         (strLower (jsToString (jsOr (jsGet col opts.keyKey) (.str "")))).data)) := by
  constructor
  · simp [descOf]
  · simp [descOf, jsIncludes, hasSub_iff]

/-! ### C7 -/

/-- Registry with one postgres connection for the C7 counterexample. -/
def c7Reg : Registry := [("c7", { type := "postgres", config := pgConfig })]

/-- Introspection rows in which two schemas of the same database hold a
base table and a view with the same name. -/
def c7Tables : List Row :=
  [[("table_schema", .str "public"), ("table_name", .str "foo"),
    ("table_type", .str "BASE TABLE")],
   [("table_schema", .str "audit"), ("table_name", .str "foo"),
    ("table_type", .str "VIEW")]]

/-- Introspection oracle for the C7 counterexample. -/
def c7Driver : SchemaDriver :=
  { emptySchemaDriver with pgTables := .ok c7Tables, pgColumns := .ok [] }

/-- The loaded node the C7 fixtures produce. -/
def c7Node : DbNode := loadedDbNode "c7" "mydb" "table_type" "table_name" c7Tables

/-- C7 counterexample: the claim says every name appears in exactly one
of `tables`/`views`.  With a base table and a view of the same name in
two schemas of the target database — which the unqualified-by-schema
introspection query of the postgres branch returns together — the name
`foo` appears in both lists. -/
theorem c7_duplicate_name_in_both_lists :
    listSchema c7Reg "c7" (some "mydb") c7Driver =
      .ok { databases := [c7Node], schema := [] } ∧
    .str "foo" ∈ c7Node.tables ∧ .str "foo" ∈ c7Node.views := by
  refine ⟨rfl, ?_, ?_⟩ <;> decide

/-- Membership in the view list of a loaded node. -/
theorem mem_splitViews_iff (typeKey nameKey : String) (rows : List Row)
    (x : JSValue) :
    x ∈ splitViews typeKey nameKey rows ↔
      ∃ t, t ∈ rows ∧ jsStrictEq (jsGet t typeKey) (.str "VIEW") = true ∧
        jsGet t nameKey = x := by
  simp [splitViews, List.mem_map, List.mem_filter, and_assoc]

/-- Membership in the table list of a loaded node. -/
theorem mem_splitTables_iff (typeKey nameKey : String) (rows : List Row)
    (x : JSValue) :
    x ∈ splitTables typeKey nameKey rows ↔
      ∃ t, t ∈ rows ∧ jsStrictEq (jsGet t typeKey) (.str "VIEW") = false ∧
        jsGet t nameKey = x := by
  simp [splitTables, List.mem_map, List.mem_filter, and_assoc]

/-- C7 (amended): every introspection row is routed to exactly one of
the two lists by its reported table type — `'VIEW'` to views, everything
else to tables — and, provided all rows sharing a name have the same
VIEW-classification (in particular whenever names are distinct), every
returned name appears in exactly one of `tables`/`views`. -/
theorem c7_split_routing (typeKey nameKey : String) (rows : List Row)
    (hcons : ∀ t1 ∈ rows, ∀ t2 ∈ rows,
      jsGet t1 nameKey = jsGet t2 nameKey →
      jsStrictEq (jsGet t1 typeKey) (.str "VIEW") =
        jsStrictEq (jsGet t2 typeKey) (.str "VIEW")) :
    ∀ r ∈ rows,
      (jsGet r nameKey ∈ splitTables typeKey nameKey rows ∧
       jsGet r nameKey ∉ splitViews typeKey nameKey rows) ∨
      (jsGet r nameKey ∉ splitTables typeKey nameKey rows ∧
       jsGet r nameKey ∈ splitViews typeKey nameKey rows) := by
  intro r hr
  cases h : jsStrictEq (jsGet r typeKey) (.str "VIEW") with
  | false =>
    left
    refine ⟨(mem_splitTables_iff typeKey nameKey rows _).2 ⟨r, hr, h, rfl⟩, ?_⟩
    intro hv
    rcases (mem_splitViews_iff typeKey nameKey rows _).1 hv with ⟨t, ht, htv, hname⟩
    have hc := hcons t ht r hr hname
    rw [htv, h] at hc
    cases hc
  | true =>
    right
    refine ⟨?_, (mem_splitViews_iff typeKey nameKey rows _).2 ⟨r, hr, h, rfl⟩⟩
    intro htb
    rcases (mem_splitTables_iff typeKey nameKey rows _).1 htb with ⟨t, ht, htv, hname⟩
    have hc := hcons t ht r hr hname
    rw [htv, h] at hc
    cases hc

/-- The single introspection row of the C7 witness. -/
def c7WRow : Row :=
  [("table_name", .str "emp"), ("table_type", .str "BASE TABLE")]

/-- The introspection row list of the C7 witness. -/
def c7WRows : List Row := [c7WRow]

/-- C7 witness: the routing property at a concrete one-row introspection
result. -/
theorem c7_split_routing_witness :
    (jsGet c7WRow "table_name" ∈ splitTables "table_type" "table_name" c7WRows ∧
     jsGet c7WRow "table_name" ∉ splitViews "table_type" "table_name" c7WRows) ∨
    (jsGet c7WRow "table_name" ∉ splitTables "table_type" "table_name" c7WRows ∧
     jsGet c7WRow "table_name" ∈ splitViews "table_type" "table_name" c7WRows) :=
  c7_split_routing "table_type" "table_name" c7WRows (by decide) c7WRow (by decide)

/-! ### C8 -/

/-- The liveness probe `connect` awaits for a given configuration's
engine branch (`pool.query('SELECT 1')` for mysql/postgres,
`pool.connect()` for sqlserver). -/
def probeOf (config : ConnConfig) (driver : ConnectDriver) : Except String Unit :=
  if config.type = "mysql" then driver.mysqlProbe
  else if config.type = "postgres" then driver.pgProbe
  else driver.mssqlConnect

/-- C8: for every configuration of a supported engine whose liveness
probe fails, `connect` rejects with exactly the underlying driver error
text and the registry is returned unchanged — no handle is registered. -/
theorem c8_connect_probe_failure (reg : Registry) (id : String)
    (config : ConnConfig) (driver : ConnectDriver) (m : String)
    (hsup : config.type = "mysql" ∨ config.type = "postgres" ∨
      config.type = "sqlserver")
    (hfail : probeOf config driver = .error m) :
    connect reg id config driver = (reg, .error m) := by
  rcases hsup with h | h | h <;>
    simp [probeOf, h] at hfail <;>
    simp [connect, h, hfail]

/-- A configuration whose host refuses connections, for the C8 witness. -/
def c8Config : ConnConfig :=
  { name := "bad", type := "mysql", host := "10.0.0.9", port := none,
    user := "root", password := "x", database := none }

/-- A connect-driver oracle whose mysql probe rejects. -/
def c8Driver : ConnectDriver :=
  { mysqlProbe := .error "connect ECONNREFUSED 10.0.0.9:3306",
    pgProbe := .ok (), mssqlConnect := .ok () }

/-- C8 witness: the failed-probe behaviour at a concrete mysql
configuration on the empty registry. -/
theorem c8_connect_probe_failure_witness :
    connect [] "id-1" c8Config c8Driver =
      ([], .error "connect ECONNREFUSED 10.0.0.9:3306") :=
  c8_connect_probe_failure [] "id-1" c8Config c8Driver
    "connect ECONNREFUSED 10.0.0.9:3306" (Or.inl rfl) rfl

end SQLSense
